import Mathlib

namespace StickyPrint

/-- Whitespace splitter mirroring Python str.split with no argument:
splits on runs of whitespace, producing no empty pieces. -/
def splitWsAux : List Char → List Char → List String
  | [], acc => if acc = [] then [] else [String.mk acc.reverse]
  | c :: cs, acc =>
    if c.isWhitespace then
      (if acc = [] then [] else [String.mk acc.reverse]) ++ splitWsAux cs []
    else splitWsAux cs (c :: acc)

/-- Python text.split() over a string. -/
def pywords (text : String) : List String := splitWsAux text.toList []

/-- Python output.split with a newline separator: keeps empty pieces. -/
def splitLinesAux : List Char → List Char → List String
  | [], acc => [String.mk acc.reverse]
  | c :: cs, acc =>
    if c = '\n' then String.mk acc.reverse :: splitLinesAux cs []
    else splitLinesAux cs (c :: acc)

def pylines (s : String) : List String := splitLinesAux s.toList []

def dropLeadingWs : List Char → List Char
  | [] => []
  | c :: cs => if c.isWhitespace then dropLeadingWs cs else c :: cs

/-- Python str.strip(): remove whitespace from both ends. -/
def pystrip (s : String) : String :=
  String.mk (List.reverse (dropLeadingWs (List.reverse (dropLeadingWs s.toList))))

/-- Python s[:n] slicing by code points. -/
def pytake (s : String) (n : Nat) : String := String.mk (s.toList.take n)

/-- Python start_time.replace with the Z suffix expanded to a UTC offset. -/
def replaceZ (s : String) : String :=
  String.mk (List.flatten (s.toList.map fun c =>
    if c = 'Z' then ['+', '0', '0', ':', '0', '0'] else [c]))

/-- Join a list of strings with a separator, as Python sep.join(lines). -/
def joinWith (sep : String) : List String → String
  | [] => ""
  | [x] => x
  | x :: y :: ys => x ++ sep ++ joinWith sep (y :: ys)

/-- From src/discovery.py, dataclass IPPPrinter: a discovered IPP printer. -/
structure IPPPrinter where
  uri : String
  hostname : String
  port : Nat
  path : String
deriving DecidableEq, Repr

/-- Split a character list at the first colon; the regex piece that a
nonempty run of non-colon characters must be followed by a colon. -/
def splitAtColon : List Char → Option (List Char × List Char)
  | [] => none
  | c :: cs =>
    if c = ':' then some ([], cs)
    else
      match splitAtColon cs with
      | some (a, b) => some (c :: a, b)
      | none => none

/-- Decimal digits to a number, as Python int() on a digit string. -/
def digitsToNat (l : List Char) : Nat :=
  l.foldl (fun n c => n * 10 + (c.toNat - 48)) 0

/-- The match in PrinterDiscovery._parse_ippfind_output for a single line,
anchored at the start: literal ipp scheme, a nonempty host part up to the
next colon, a nonempty digit run for the port, then a path beginning with
a slash running to the end of the line. -/
def matchIppLine (line : String) : Option IPPPrinter :=
  match line.toList with
  | 'i' :: 'p' :: 'p' :: ':' :: '/' :: '/' :: rest =>
    match splitAtColon rest with
    | none => none
    | some (host, rest2) =>
      if host = [] then none
      else
        let digits := rest2.takeWhile Char.isDigit
        let rest3 := rest2.drop digits.length
        if digits = [] then none
        else
          match rest3 with
          | '/' :: _ =>
            some { uri := line, hostname := String.mk host,
                   port := digitsToNat digits, path := String.mk rest3 }
          | _ => none
  | _ => none

/-- PrinterDiscovery._parse_ippfind_output: strip the output, split it into
lines, strip each line, skip empty lines, and keep every line matching the
IPP URL pattern; non-matching lines are ignored. -/
def parse_ippfind_output (output : String) : List IPPPrinter :=
  ((pylines (pystrip output)).map pystrip).filterMap fun line =>
    if line = "" then none else matchIppLine line

/-- Outcome of the external ippfind subprocess, the effects visible to
PrinterDiscovery._discover_with_ippfind: it can exceed the timeout, the
executable can be missing, another exception can occur, or the process
completes with a return code and captured standard output. -/
inductive IppfindOutcome where
  | timeout
  | fileNotFound
  | otherError
  | completed (returncode : Int) (stdout : String)
deriving DecidableEq, Repr

/-- Result of one run of PrinterDiscovery._discover_with_ippfind: the
parsed printers plus whether the subprocess was killed and awaited. -/
structure IppfindRun where
  printers : List IPPPrinter
  killedSubprocess : Bool
  awaitedSubprocess : Bool
deriving DecidableEq, Repr

/-- PrinterDiscovery._discover_with_ippfind: on timeout the process is
killed and awaited and the empty list is returned; a missing executable or
any other exception also yields the empty list; a nonzero return code
yields the empty list; otherwise the captured output is parsed. -/
def discover_with_ippfind : IppfindOutcome → IppfindRun
  | .timeout =>
    { printers := [], killedSubprocess := true, awaitedSubprocess := true }
  | .fileNotFound =>
    { printers := [], killedSubprocess := false, awaitedSubprocess := false }
  | .otherError =>
    { printers := [], killedSubprocess := false, awaitedSubprocess := false }
  | .completed rc out =>
    if rc ≠ 0 then
      { printers := [], killedSubprocess := false, awaitedSubprocess := false }
    else
      { printers := parse_ippfind_output out,
        killedSubprocess := false, awaitedSubprocess := false }

/-- Outcome of one TCP probe in PrinterDiscovery._check_ipp_service:
a successful connect, a timeout or refused or OS-level failure, or any
other exception; the last two both yield nothing. -/
inductive ProbeOutcome where
  | connected
  | refusedOrTimeout
  | otherError
deriving DecidableEq, Repr

/-- PrinterDiscovery._check_ipp_service: a successful connect to port 631
yields a printer with the default resource path; everything else yields
nothing and does not abort the sweep. -/
def check_ipp_service (ip : String) : ProbeOutcome → Option IPPPrinter
  | .connected =>
    some { uri := "ipp://" ++ ip ++ ":631/ipp/print",
           hostname := ip, port := 631, path := "/ipp/print" }
  | .refusedOrTimeout => none
  | .otherError => none

/-- Environment of external effects the discovery component observes: the
ippfind subprocess outcome, the host addresses enumerated from the local
networks in _get_local_networks (in scan order), the per-host TCP probe
outcome, and the result of an ipptool verification probe per URI. -/
structure DiscoveryEnv where
  ippfind : IppfindOutcome
  scanHosts : List String
  probe : String → ProbeOutcome
  verify : String → Bool

/-- PrinterDiscovery._discover_with_network_scan: probe every host of every
derived network range and collect the successful connects. -/
def discover_with_network_scan (env : DiscoveryEnv) : List IPPPrinter :=
  env.scanHosts.filterMap fun ip => check_ipp_service ip (env.probe ip)

/-- Result of PrinterDiscovery.discover_printers, together with whether the
network sweep fallback strategy was executed. -/
structure DiscoveryRun where
  printers : List IPPPrinter
  sweepRan : Bool
deriving DecidableEq, Repr

/-- PrinterDiscovery.discover_printers: try ippfind first; only when it
returns no printers fall back to the network scan. -/
def discover_printers (env : DiscoveryEnv) : DiscoveryRun :=
  let printers := (discover_with_ippfind env.ippfind).printers
  if printers.isEmpty then
    { printers := discover_with_network_scan env, sweepRan := true }
  else
    { printers := printers, sweepRan := false }

/-- PrinterDiscovery.find_sticky_note_printer: the first discovered
printer, if any. -/
def find_sticky_note_printer (env : DiscoveryEnv) : Option IPPPrinter :=
  (discover_printers env).printers.head?

/-- PrinterDiscovery.verify_printer: issue a status query through ipptool
for the given URI; the boolean outcome is observed from the environment. -/
def verify_printer (env : DiscoveryEnv) (uri : String) : Bool :=
  env.verify uri

/-- PrinterDiscovery.create_manual_printer: build a printer from a manual
address; the URI interpolates the address, port and resource path. -/
def create_manual_printer (ip : String) (port : Nat) (path : String) : IPPPrinter :=
  { uri := "ipp://" ++ ip ++ ":" ++ toString port ++ path,
    hostname := ip, port := port, path := path }

/-- A loaded font as the renderer uses it in src/image_processor.py: the
pixel width font.getsize(s)[0] of a string, and the glyph height
font.getsize("Ay")[1] used for the line height. -/
structure Font where
  textWidth : String → Nat
  glyphHeight : Nat

/-- StickyNoteRenderer configuration and its external collaborators: the
margin, the map from a glyph height to int(height * line_spacing), the
font lookup self.fonts.get(font_type, self.fonts[FONT_SANS]), the
datetime.fromisoformat parse yielding the hour and minute or failing, and
the qrcode library call yielding the raw QR image dimensions or failing. -/
structure RendererConfig where
  margin : Nat
  lineSpacingScale : Nat → Nat
  fontFor : String → Font
  parseISOTime : String → Option (Nat × Nat)
  qrEncode : String → Option (Nat × Nat)

/-- StickyNoteRenderer.WIDTH, the fixed printer width in pixels. -/
def WIDTH : Nat := 576

/-- One iteration of the word loop in StickyNoteRenderer._wrap_text: build
the candidate line, keep it if it fits, otherwise flush the current line
and start from the word, or emit an oversized word alone when the current
line is empty. -/
def wrapStep (measure : String → Nat) (maxWidth : Nat)
    (acc : List String × String) (word : String) : List String × String :=
  let test := if acc.2 = "" then word else acc.2 ++ " " ++ word
  if measure test ≤ maxWidth then (acc.1, test)
  else if acc.2 = "" then (acc.1 ++ [word], acc.2)
  else (acc.1 ++ [acc.2], word)

/-- StickyNoteRenderer._wrap_text: split the text on whitespace, fold the
words, append the trailing current line if nonempty, and fall back to a
single empty line when nothing was produced. -/
def wrap_text (measure : String → Nat) (text : String) (maxWidth : Nat) : List String :=
  let r := (pywords text).foldl (wrapStep measure maxWidth) ([], "")
  let lines := if r.2 = "" then r.1 else r.1 ++ [r.2]
  if lines = [] then [""] else lines

/-- Append further words to a nonempty current line, one space apart. -/
def joinSp : String → List String → String
  | cur, [] => cur
  | cur, w :: ws => joinSp (cur ++ " " ++ w) ws

/-- The single line holding all words of a list, one space apart; this is
what _wrap_text produces when everything fits on one line. -/
def joined : List String → String
  | [] => ""
  | w :: ws => joinSp w ws

/-- The rendered bitmap as the claims observe it: its dimensions, its PIL
mode, the text lines drawn onto it top to bottom, and whether it has been
flipped for the printer feed direction. -/
structure RImage where
  width : Nat
  height : Nat
  mode : String
  textLines : List String
  flipped : Bool
deriving DecidableEq, Repr

/-- StickyNoteRenderer._prepare_for_printer: convert to 1-bit monochrome
with error-diffusion dithering and flip top to bottom; both steps keep the
dimensions. -/
def prepare_for_printer (img : RImage) : RImage :=
  { img with mode := "1", flipped := !img.flipped }

/-- StickyNoteRenderer.render_text: wrap the text at the maximum width
(defaulting to the fixed width minus both margins), stack the wrapped
lines at the computed line height with the margin above and below, and
run the printer preparation step. -/
def render_text (cfg : RendererConfig) (text : String) (fontType : String)
    (maxWidthOpt : Option Nat) : RImage :=
  let maxWidth := maxWidthOpt.getD (WIDTH - 2 * cfg.margin)
  let font := cfg.fontFor fontType
  let wrapped := wrap_text font.textWidth text maxWidth
  let lineHeight := cfg.lineSpacingScale font.glyphHeight
  let imageHeight := wrapped.length * lineHeight + 2 * cfg.margin
  prepare_for_printer
    { width := WIDTH, height := imageHeight, mode := "L",
      textLines := wrapped, flipped := false }

/-- StickyNoteRenderer.render_qr_code: encode the payload; on failure fall
back to rendering a truncated textual form with the default font; on
success scale the QR bitmap down to the usable width when oversized,
keeping the aspect ratio, then center it with vertical margins and run the
printer preparation step. -/
def render_qr_code (cfg : RendererConfig) (data : String) : RImage :=
  match cfg.qrEncode data with
  | none => render_text cfg ("QR: " ++ pytake data 50 ++ "...") "sans-serif" none
  | some (w, h) =>
    let usable := WIDTH - 2 * cfg.margin
    let h2 := if w > usable then usable * h / w else h
    let imageHeight := h2 + 2 * cfg.margin
    prepare_for_printer
      { width := WIDTH, height := imageHeight, mode := "L",
        textLines := [], flipped := false }

/-- A calendar event as render_calendar_events reads it: the summary key
and the dateTime key nested under start, each possibly missing. -/
structure CalEvent where
  summary : Option String
  startDateTime : Option String
deriving DecidableEq, Repr

/-- Zero-padded two-digit field of strftime for hours and minutes. -/
def two_digit (n : Nat) : String :=
  if n < 10 then "0" ++ toString n else toString n

/-- The bullet line render_calendar_events formats for one event: when a
start time is present and datetime.fromisoformat accepts it (after the Z
suffix is expanded), the title is prefixed with the HH:MM time; otherwise
the bullet carries the title alone. -/
def event_line (cfg : RendererConfig) (e : CalEvent) : String :=
  let title := e.summary.getD "Untitled Event"
  let start := e.startDateTime.getD ""
  if start = "" then "• " ++ title
  else
    match cfg.parseISOTime (replaceZ start) with
    | some (hh, mm) => "• " ++ two_digit hh ++ ":" ++ two_digit mm ++ " - " ++ title
    | none => "• " ++ title

/-- The content lines render_calendar_events assembles for a nonempty
event list: the header, an empty spacer line, then one bullet per event. -/
def calendar_content_lines (cfg : RendererConfig) (events : List CalEvent) : List String :=
  ["Today\x27s Events:", ""] ++ events.map (event_line cfg)

/-- The text render_calendar_events hands to render_text: the no-events
message for an empty list, otherwise the newline-join of the content. -/
def calendar_text (cfg : RendererConfig) (events : List CalEvent) : String :=
  if events = [] then "No events today"
  else joinWith "\n" (calendar_content_lines cfg events)

/-- StickyNoteRenderer.render_calendar_events. -/
def render_calendar_events (cfg : RendererConfig) (events : List CalEvent)
    (fontType : String) : RImage :=
  if events = [] then render_text cfg "No events today" fontType none
  else render_text cfg (joinWith "\n" (calendar_content_lines cfg events)) fontType none

/-- A todo item as render_todo_list reads it: the summary key, possibly
missing, and the completed flag defaulting to false. -/
structure TodoItem where
  summary : Option String
  completed : Bool
deriving DecidableEq, Repr

/-- The checkbox line render_todo_list formats for one item. -/
def todo_line (t : TodoItem) : String :=
  (if t.completed then "☑" else "☐") ++ " " ++ t.summary.getD "Untitled Task"

/-- The text render_todo_list hands to render_text. -/
def todo_text (todos : List TodoItem) : String :=
  if todos = [] then "No todos"
  else joinWith "\n" (["Todo List:", ""] ++ todos.map todo_line)

/-- StickyNoteRenderer.render_todo_list. -/
def render_todo_list (cfg : RendererConfig) (todos : List TodoItem)
    (fontType : String) : RImage :=
  if todos = [] then render_text cfg "No todos" fontType none
  else render_text cfg (joinWith "\n" (["Todo List:", ""] ++ todos.map todo_line)) fontType none

/-- StickyNotePrinter state: the configured printer endpoint, if any. -/
structure PrinterState where
  printer : Option IPPPrinter
deriving DecidableEq, Repr

/-- Environment of external effects in StickyNotePrinter.print_image: an
exception while saving the bitmap, whether the print-job test file is
found, and the ipptool invocation outcome (missing executable or the
return code of the completed process). -/
structure SubmitEnv where
  saveRaises : Bool
  printJobTestFound : Bool
  ipptoolReturncode : Option Int

/-- Filesystem and subprocess effects a print call performs. -/
structure PrintEffects where
  filesWritten : List String
  processesSpawned : List String
deriving DecidableEq, Repr

def noEffects : PrintEffects :=
  { filesWritten := [], processesSpawned := [] }

/-- StickyNotePrinter._send_to_printer: the connectivity debug attempts a
ping subprocess first; a missing test file or missing ipptool yields
failure; otherwise ipptool runs and return code zero means success. -/
def send_to_printer (env : SubmitEnv) : Bool × List String :=
  if !env.printJobTestFound then (false, ["ping"])
  else
    match env.ipptoolReturncode with
    | none => (false, ["ping"])
    | some rc => (rc = 0, ["ping", "ipptool"])

/-- StickyNotePrinter.print_image: with no configured printer, fail
immediately with no file writes and no subprocesses; otherwise write the
BMP and PNG artifacts (unless saving raises) and submit through ipptool,
removing the BMP afterwards. -/
def print_image (st : PrinterState) (img : RImage) (jobName : String)
    (env : SubmitEnv) : Bool × PrintEffects :=
  match st.printer with
  | none => (false, noEffects)
  | some _ =>
    let _saved := img
    if env.saveRaises then (false, noEffects)
    else
      let r := send_to_printer env
      (r.1, { filesWritten := [jobName ++ ".bmp", jobName ++ ".png"],
              processesSpawned := r.2 })

/-- StickyNotePrinter.get_printer_status report shape. -/
inductive PrinterStatusReport where
  | noPrinter
  | report (status : String) (uri : String) (hostname : String) (port : Nat)
deriving DecidableEq, Repr

/-- StickyNotePrinter.get_printer_status: no printer yields the no_printer
status; otherwise the live connection test drives the status string and
the configured endpoint fields are reported. -/
def get_printer_status (connected : Bool) (st : PrinterState) : PrinterStatusReport :=
  match st.printer with
  | none => .noPrinter
  | some p =>
    .report (if connected then "connected" else "disconnected") p.uri p.hostname p.port

/-- The configuration keys StickyPrintService reads and writes: the
auto-discover flag, the manual address keys (written back by manual
configuration; port and path keys only exist once a non-default value was
stored), and the default calendar entity. -/
structure ServiceConfig where
  autoDiscover : Bool
  manualIp : String
  manualPort : Option Nat
  manualPath : Option String
  defaultCalendar : String
deriving DecidableEq, Repr

/-- StickyPrintService state: the configuration snapshot plus the current
printer endpoint held by the contained StickyNotePrinter. -/
structure ServiceState where
  config : ServiceConfig
  printer : Option IPPPrinter
deriving DecidableEq, Repr

/-- External collaborators of the service facade beyond discovery: the
submission environment and the Home Assistant API answers for calendar
events and todo items per entity id. -/
structure ServiceEnv where
  submit : SubmitEnv
  calendarEvents : String → List CalEvent
  todoItems : String → List TodoItem

/-- Trace of one service print operation: how many images were rendered
and which print effects occurred. -/
structure OpTrace where
  rendersPerformed : Nat
  printEffects : PrintEffects
deriving DecidableEq, Repr

def emptyTrace : OpTrace :=
  { rendersPerformed := 0, printEffects := noEffects }

/-- Python truthiness choice string_or: an empty or missing string falls
back to the default, as in the value-or-default idiom. -/
def string_or (s : Option String) (dflt : String) : String :=
  match s with
  | some e => if e = "" then dflt else e
  | none => dflt

/-- StickyPrintService.print_text: render the text and hand the image to
the printer client. -/
def svc_print_text (cfg : RendererConfig) (env : ServiceEnv) (st : ServiceState)
    (text : String) (fontType : String) (jobName : String) : Bool × OpTrace :=
  let image := render_text cfg text fontType none
  let r := print_image { printer := st.printer } image jobName env.submit
  (r.1, { rendersPerformed := 1, printEffects := r.2 })

/-- StickyPrintService.print_qr_code. -/
def svc_print_qr_code (cfg : RendererConfig) (env : ServiceEnv) (st : ServiceState)
    (data : String) (jobName : String) : Bool × OpTrace :=
  let image := render_qr_code cfg data
  let r := print_image { printer := st.printer } image jobName env.submit
  (r.1, { rendersPerformed := 1, printEffects := r.2 })

/-- StickyPrintService.print_calendar_today: resolve the entity (a missing
or empty entity falls back to the default calendar), fetch its events,
render them and hand the image to the printer client. -/
def svc_print_calendar_today (cfg : RendererConfig) (env : ServiceEnv)
    (st : ServiceState) (calendarEntity : Option String) (fontType : String)
    (jobName : String) : Bool × OpTrace :=
  let entityId := string_or calendarEntity st.config.defaultCalendar
  let events := env.calendarEvents entityId
  let image := render_calendar_events cfg events fontType
  let r := print_image { printer := st.printer } image jobName env.submit
  (r.1, { rendersPerformed := 1, printEffects := r.2 })

/-- StickyPrintService.print_todo_list. -/
def svc_print_todo_list (cfg : RendererConfig) (env : ServiceEnv)
    (st : ServiceState) (todoEntity : String) (fontType : String)
    (jobName : String) : Bool × OpTrace :=
  let todos := env.todoItems todoEntity
  let image := render_todo_list cfg todos fontType
  let r := print_image { printer := st.printer } image jobName env.submit
  (r.1, { rendersPerformed := 1, printEffects := r.2 })

/-- The notification payload keys handle_notification consumes. -/
structure NotifData where
  ntype : Option String
  entity : Option String
  font : Option String
deriving DecidableEq, Repr

/-- StickyPrintService.handle_notification: dispatch on the type tag to the
QR, calendar, todo or plain-text operation; a todo notification whose
payload carries no entity (or an empty one) fails without rendering or
printing. -/
def handle_notification (cfg : RendererConfig) (env : ServiceEnv)
    (st : ServiceState) (message : String) (title : String) (data : NotifData) :
    Bool × OpTrace :=
  let fontType := (data.font).getD "sans-serif"
  let jobName := if title = "" then "Notification" else title
  if data.ntype = some "qr" then
    svc_print_qr_code cfg env st message jobName
  else if data.ntype = some "calendar" then
    let calendarEntity := (data.entity).getD st.config.defaultCalendar
    svc_print_calendar_today cfg env st (some calendarEntity) fontType jobName
  else if data.ntype = some "todo" then
    match data.entity with
    | some e =>
      if e = "" then (false, emptyTrace)
      else svc_print_todo_list cfg env st e fontType jobName
    | none => (false, emptyTrace)
  else
    let fullText := if title = "" then message else title ++ "\n\n" ++ message
    svc_print_text cfg env st fullText fontType jobName

/-- The auto-discovery phase of StickyPrintService._setup_printer: when
auto-discovery is on, adopt the first discovered printer if any. -/
def setup_auto (env : DiscoveryEnv) (st : ServiceState) : ServiceState :=
  if st.config.autoDiscover then
    match find_sticky_note_printer env with
    | some p => { st with printer := some p }
    | none => st
  else st

/-- The manual phase of StickyPrintService._setup_printer: when a manual
address is configured and no printer is set yet, build the manual endpoint
with default port and path and adopt it only if verification succeeds. -/
def setup_manual (env : DiscoveryEnv) (st : ServiceState) : ServiceState :=
  let manualIp := pystrip st.config.manualIp
  if manualIp = "" then st
  else
    match st.printer with
    | some _ => st
    | none =>
      let mp := create_manual_printer manualIp 631 "/ipp/print"
      if verify_printer env mp.uri then { st with printer := some mp } else st

/-- StickyPrintService._setup_printer: the auto-discovery phase followed by
the manual phase; on total failure the state is left as it was. -/
def setup_printer (env : DiscoveryEnv) (st : ServiceState) : ServiceState :=
  setup_manual env (setup_auto env st)

/-- StickyPrintService.rediscover_printer: run the setup again and report
whether a printer is configured afterwards. -/
def rediscover_printer (env : DiscoveryEnv) (st : ServiceState) :
    Bool × ServiceState :=
  let st1 := setup_printer env st
  (st1.printer.isSome, st1)

/-- StickyPrintService.configure_manual_printer: build the manual endpoint,
verify it, and only on success adopt it and write the manual address back
into the configuration (the port and path keys only when they differ from
the defaults); on failure return false and leave everything unchanged. -/
def configure_manual_printer (env : DiscoveryEnv) (st : ServiceState)
    (printerIp : String) (port : Nat) (path : String) : Bool × ServiceState :=
  let mp := create_manual_printer printerIp port path
  if verify_printer env mp.uri then
    let c1 := { st.config with manualIp := printerIp }
    let c2 := if port ≠ 631 then { c1 with manualPort := some port } else c1
    let c3 := if path ≠ "/ipp/print" then { c2 with manualPath := some path } else c2
    (true, { config := c3, printer := some mp })
  else
    (false, st)

/-- A discovery environment in which ippfind advertises one printer. -/
def envAdvertised : DiscoveryEnv :=
  { ippfind := .completed 0 "ipp://printer.local:631/ipp/print",
    scanHosts := ["10.0.0.9"], probe := fun _ => .connected,
    verify := fun _ => true }

/-- A discovery environment in which the ippfind subprocess times out. -/
def envTimedOut : DiscoveryEnv :=
  { ippfind := .timeout, scanHosts := [], probe := fun _ => .refusedOrTimeout,
    verify := fun _ => false }

/-- A discovery environment in which ippfind fails but any verification
probe succeeds. -/
def envVerifyAll : DiscoveryEnv :=
  { ippfind := .completed 1 "", scanHosts := [],
    probe := fun _ => .refusedOrTimeout, verify := fun _ => true }

/-- A discovery environment in which ippfind fails, every swept host
refuses and every verification probe fails. -/
def envVerifyNone : DiscoveryEnv :=
  { ippfind := .completed 1 "", scanHosts := ["10.0.0.7"],
    probe := fun _ => .refusedOrTimeout, verify := fun _ => false }

def sampleConfig : ServiceConfig :=
  { autoDiscover := true, manualIp := "10.0.0.5", manualPort := none,
    manualPath := none, defaultCalendar := "calendar.family" }

def samplePrinter : IPPPrinter :=
  { uri := "ipp://10.0.0.5:631/ipp/print", hostname := "10.0.0.5",
    port := 631, path := "/ipp/print" }

def sampleState : ServiceState :=
  { config := sampleConfig, printer := some samplePrinter }

def noPrinterState : ServiceState :=
  { config := sampleConfig, printer := none }

/-- A concrete renderer configuration with a character-count width measure,
no parseable times and no QR encoder. -/
def cfgCex : RendererConfig :=
  { margin := 10, lineSpacingScale := fun h => h,
    fontFor := fun _ => { textWidth := String.length, glyphHeight := 10 },
    parseISOTime := fun _ => none, qrEncode := fun _ => none }

/-- A concrete renderer configuration whose time parser accepts exactly one
normalized timestamp. -/
def cfgCal : RendererConfig :=
  { margin := 10, lineSpacingScale := fun h => h,
    fontFor := fun _ => { textWidth := String.length, glyphHeight := 10 },
    parseISOTime := fun s =>
      if s = "2024-05-01T09:30:00+00:00" then some (9, 30) else none,
    qrEncode := fun _ => none }

def evTimed : CalEvent :=
  { summary := some "Standup", startDateTime := some "2024-05-01T09:30:00Z" }

def svcEnvSample : ServiceEnv :=
  { submit := { saveRaises := false, printJobTestFound := true,
                ipptoolReturncode := some 0 },
    calendarEvents := fun _ => [], todoItems := fun _ => [] }

/-- Sanity check of the whitespace splitter on mixed whitespace: newlines
and spaces both separate, and runs collapse. -/
theorem pywords_eval :
    pywords "Today\x27s Events:\n\n• Standup"
      = ["Today\x27s", "Events:", "•", "Standup"] := by decide

/-- Sanity check of the ippfind output parser: matching lines are kept in
order and non-matching or empty lines are ignored. -/
theorem parse_ippfind_output_eval :
    parse_ippfind_output
        "ipp://printer.local:631/ipp/print\njunk line\n\nipp://10.0.0.2:631/ipp/print\n"
      = [{ uri := "ipp://printer.local:631/ipp/print", hostname := "printer.local",
           port := 631, path := "/ipp/print" },
         { uri := "ipp://10.0.0.2:631/ipp/print", hostname := "10.0.0.2",
           port := 631, path := "/ipp/print" }] := by decide

/-- Sanity check: a line whose port digits are not followed by a slash does
not match the pattern. -/
theorem matchIppLine_no_slash_eval : matchIppLine "ipp://host:12ab/x" = none := by decide

/-- Sanity check of the Z-suffix expansion on a concrete timestamp. -/
theorem replaceZ_eval :
    replaceZ "2024-01-01T09:00:00Z" = "2024-01-01T09:00:00+00:00" := by decide

/-- C1: for every run of discover_printers, the network-sweep fallback
strategy is executed if and only if the ippfind strategy returns an empty
printer list; whenever ippfind yields at least one candidate, the sweep is
not run and exactly the ippfind results are returned. -/
theorem claim_C1 (env : DiscoveryEnv) :
    ((discover_printers env).sweepRan = true ↔
      (discover_with_ippfind env.ippfind).printers = []) ∧
    ((discover_with_ippfind env.ippfind).printers ≠ [] →
      (discover_printers env).printers = (discover_with_ippfind env.ippfind).printers ∧
      (discover_printers env).sweepRan = false) := by
  cases h : (discover_with_ippfind env.ippfind).printers with
  | nil => simp [discover_printers, h]
  | cons a l => simp [discover_printers, h]

/-- Witness for C1 at a concrete environment where ippfind advertises one
printer: the sweep does not run and the ippfind results are returned. -/
theorem claim_C1_witness :
    (discover_printers envAdvertised).printers
      = (discover_with_ippfind envAdvertised.ippfind).printers ∧
    (discover_printers envAdvertised).sweepRan = false := by
  have h := (claim_C1 envAdvertised).2 (by decide)
  exact ⟨h.1, h.2⟩

/-- C3: if the ippfind subprocess does not complete within the timeout,
discovery kills the subprocess, awaits it, and returns an empty printer
list without raising, and discover_printers then runs the sweep fallback. -/
theorem claim_C3 (env : DiscoveryEnv) (h : env.ippfind = .timeout) :
    (discover_with_ippfind env.ippfind).killedSubprocess = true ∧
    (discover_with_ippfind env.ippfind).awaitedSubprocess = true ∧
    (discover_with_ippfind env.ippfind).printers = [] ∧
    (discover_printers env).sweepRan = true := by
  simp [discover_printers, discover_with_ippfind, h]

/-- Witness for C3 at a concrete environment whose ippfind run times out. -/
theorem claim_C3_witness :
    (discover_with_ippfind envTimedOut.ippfind).killedSubprocess = true ∧
    (discover_with_ippfind envTimedOut.ippfind).awaitedSubprocess = true ∧
    (discover_with_ippfind envTimedOut.ippfind).printers = [] ∧
    (discover_printers envTimedOut).sweepRan = true :=
  claim_C3 envTimedOut rfl

/-- C2: print_image with no configured printer endpoint returns false
immediately, writing no file and spawning no process, and consequently
every print-star service operation returns an explicit failure with no
print effects when no endpoint is configured. -/
theorem claim_C2 :
    (∀ (img : RImage) (jobName : String) (env : SubmitEnv),
      print_image { printer := none } img jobName env = (false, noEffects)) ∧
    (∀ cfg env c text ft jn,
      svc_print_text cfg env { config := c, printer := none } text ft jn
        = (false, { rendersPerformed := 1, printEffects := noEffects })) ∧
    (∀ cfg env c data jn,
      svc_print_qr_code cfg env { config := c, printer := none } data jn
        = (false, { rendersPerformed := 1, printEffects := noEffects })) ∧
    (∀ cfg env c ce ft jn,
      svc_print_calendar_today cfg env { config := c, printer := none } ce ft jn
        = (false, { rendersPerformed := 1, printEffects := noEffects })) ∧
    (∀ cfg env c te ft jn,
      svc_print_todo_list cfg env { config := c, printer := none } te ft jn
        = (false, { rendersPerformed := 1, printEffects := noEffects })) :=
  ⟨fun _ _ _ => rfl, fun _ _ _ _ _ _ => rfl, fun _ _ _ _ _ => rfl,
   fun _ _ _ _ _ _ => rfl, fun _ _ _ _ _ _ => rfl⟩

/-- C9: when verification of the manual candidate endpoint fails,
configure_manual_printer returns false and leaves the whole service state,
including the manual configuration keys, unchanged. -/
theorem claim_C9 (env : DiscoveryEnv) (st : ServiceState)
    (ip : String) (port : Nat) (path : String)
    (h : env.verify (create_manual_printer ip port path).uri = false) :
    configure_manual_printer env st ip port path = (false, st) := by
  unfold configure_manual_printer verify_printer
  simp [h]

/-- Witness for C9 at a concrete environment where no probe verifies. -/
theorem claim_C9_witness :
    configure_manual_printer envVerifyNone sampleState "10.0.0.8" 631 "/ipp/print"
      = (false, sampleState) :=
  claim_C9 envVerifyNone sampleState "10.0.0.8" 631 "/ipp/print" rfl

/-- C10: a notification whose type tag is todo but whose payload carries no
entity makes handle_notification return false with no image rendered and
no print submission attempted. -/
theorem claim_C10 (cfg : RendererConfig) (env : ServiceEnv) (st : ServiceState)
    (message title : String) (data : NotifData)
    (htype : data.ntype = some "todo") (hent : data.entity = none) :
    handle_notification cfg env st message title data = (false, emptyTrace) := by
  unfold handle_notification
  rw [htype, hent]
  simp

/-- Witness for C10 at a concrete todo notification without an entity. -/
theorem claim_C10_witness :
    handle_notification cfgCex svcEnvSample sampleState "buy milk" "Todo"
        { ntype := some "todo", entity := none, font := none }
      = (false, emptyTrace) :=
  claim_C10 cfgCex svcEnvSample sampleState "buy milk" "Todo"
    { ntype := some "todo", entity := none, font := none } rfl rfl

/-- How configure_manual_printer unfolds: a single conditional on the
verification outcome of the constructed manual URI. -/
theorem configure_manual_printer_eq (env : DiscoveryEnv) (st : ServiceState)
    (ip : String) (port : Nat) (path : String) :
    configure_manual_printer env st ip port path
      = if env.verify (create_manual_printer ip port path).uri then
          (true,
            { config :=
                (if path ≠ "/ipp/print" then
                  { (if port ≠ 631 then
                      { { st.config with manualIp := ip } with manualPort := some port }
                    else { st.config with manualIp := ip }) with manualPath := some path }
                 else
                  (if port ≠ 631 then
                    { { st.config with manualIp := ip } with manualPort := some port }
                  else { st.config with manualIp := ip })),
              printer := some (create_manual_printer ip port path) })
        else (false, st) := rfl

/-- C4: for manual IP 192.168.1.50 with default port and path, the
constructed URI is exactly ipp scheme, that host, port 631 and the default
resource path; configure_manual_printer returns true exactly when the
verification probe of that URI succeeds, and on success a subsequent
status query reports that exact URI as the active endpoint. -/
theorem claim_C4 (env : DiscoveryEnv) (st : ServiceState) :
    (create_manual_printer "192.168.1.50" 631 "/ipp/print").uri
      = "ipp://192.168.1.50:631/ipp/print" ∧
    ((configure_manual_printer env st "192.168.1.50" 631 "/ipp/print").1 = true ↔
      env.verify "ipp://192.168.1.50:631/ipp/print" = true) ∧
    ((configure_manual_printer env st "192.168.1.50" 631 "/ipp/print").1 = true →
      ∀ connected : Bool,
        get_printer_status connected
            { printer := (configure_manual_printer env st "192.168.1.50" 631 "/ipp/print").2.printer }
          = .report (if connected then "connected" else "disconnected")
              "ipp://192.168.1.50:631/ipp/print" "192.168.1.50" 631) := by
  have huri : (create_manual_printer "192.168.1.50" 631 "/ipp/print").uri
      = "ipp://192.168.1.50:631/ipp/print" := by decide
  rw [configure_manual_printer_eq, huri]
  refine ⟨huri, ?_, ?_⟩
  · cases hv : env.verify "ipp://192.168.1.50:631/ipp/print" <;> simp [hv]
  · cases hv : env.verify "ipp://192.168.1.50:631/ipp/print" with
    | false => simp [hv]
    | true =>
      intro _ connected
      cases connected <;> simp [hv] <;> decide

/-- Witness for C4 at a concrete environment where every probe succeeds. -/
theorem claim_C4_witness :
    (configure_manual_printer envVerifyAll noPrinterState "192.168.1.50" 631 "/ipp/print").1 = true ∧
    get_printer_status true
        { printer := (configure_manual_printer envVerifyAll noPrinterState "192.168.1.50" 631 "/ipp/print").2.printer }
      = .report "connected" "ipp://192.168.1.50:631/ipp/print" "192.168.1.50" 631 := by
  have h := claim_C4 envVerifyAll noPrinterState
  have h1 : (configure_manual_printer envVerifyAll noPrinterState "192.168.1.50" 631 "/ipp/print").1 = true :=
    h.2.1.mpr rfl
  refine ⟨h1, ?_⟩
  simpa using h.2.2 h1 true

/-- C8: when both discovery strategies find nothing and the manual address
does not verify (or none is configured), rediscovery returns whether a
printer was already configured and leaves the service state, in particular
any previously configured endpoint, entirely unchanged. -/
theorem claim_C8 (env : DiscoveryEnv) (st : ServiceState)
    (hipp : (discover_with_ippfind env.ippfind).printers = [])
    (hscan : discover_with_network_scan env = [])
    (hman : pystrip st.config.manualIp = "" ∨
      env.verify (create_manual_printer (pystrip st.config.manualIp) 631 "/ipp/print").uri = false) :
    rediscover_printer env st = (st.printer.isSome, st) := by
  have hfind : find_sticky_note_printer env = none := by
    simp [find_sticky_note_printer, discover_printers, hipp, hscan]
  have h1 : setup_auto env st = st := by
    unfold setup_auto
    rw [hfind]
    cases st.config.autoDiscover <;> simp
  have h2 : setup_manual env st = st := by
    unfold setup_manual verify_printer
    rcases hman with hm | hm
    · simp [hm]
    · by_cases he : pystrip st.config.manualIp = ""
      · simp [he]
      · cases hp : st.printer <;> simp [he, hp, hm]
  unfold rediscover_printer setup_printer
  rw [h1, h2]

/-- Witness for C8 at a concrete total-failure environment and a state with
a previously configured endpoint: the endpoint survives rediscovery. -/
theorem claim_C8_witness :
    rediscover_printer envVerifyNone sampleState = (sampleState.printer.isSome, sampleState) :=
  claim_C8 envVerifyNone sampleState (by decide) (by decide) (Or.inr rfl)

/-- A current line extended by a space and a word is never empty. -/
theorem append_sp_ne (cur w : String) : cur ++ " " ++ w ≠ "" := by
  intro h
  have hl := congrArg String.length h
  simp [String.length_append] at hl
  exact absurd hl.1.2 (by decide)

/-- Extending a nonempty current line keeps it nonempty. -/
theorem joinSp_ne : ∀ (ws : List String) (cur : String), cur ≠ "" → joinSp cur ws ≠ "" := by
  intro ws
  induction ws with
  | nil => intro cur h; exact h
  | cons w ws ih => intro cur _; exact ih (cur ++ " " ++ w) (append_sp_ne cur w)

/-- Under a width measure monotone in string extension, a current line is
never wider than its extension by further words. -/
theorem le_joinSp (measure : String → Nat)
    (hmono : ∀ s t, measure s ≤ measure (s ++ t)) :
    ∀ (ws : List String) (cur : String), measure cur ≤ measure (joinSp cur ws) := by
  intro ws
  induction ws with
  | nil => intro cur; exact le_refl _
  | cons w ws ih =>
    intro cur
    calc measure cur ≤ measure (cur ++ " ") := hmono _ _
      _ ≤ measure (cur ++ " " ++ w) := hmono _ _
      _ ≤ measure (joinSp (cur ++ " " ++ w) ws) := ih _

/-- When the whole remaining join fits within the width, the wrap loop
keeps extending the current line and emits nothing. -/
theorem foldl_wrapStep_fits (measure : String → Nat) (maxWidth : Nat)
    (hmono : ∀ s t, measure s ≤ measure (s ++ t)) :
    ∀ (ws : List String) (lines : List String) (cur : String), cur ≠ "" →
      measure (joinSp cur ws) ≤ maxWidth →
      ws.foldl (wrapStep measure maxWidth) (lines, cur) = (lines, joinSp cur ws) := by
  intro ws
  induction ws with
  | nil => intro lines cur _ _; rfl
  | cons w ws ih =>
    intro lines cur hcur hfit
    have hfit' : measure (joinSp (cur ++ " " ++ w) ws) ≤ maxWidth := hfit
    have htest : measure (cur ++ " " ++ w) ≤ maxWidth :=
      le_trans (le_joinSp measure hmono ws (cur ++ " " ++ w)) hfit'
    rw [List.foldl_cons]
    have hstep : wrapStep measure maxWidth (lines, cur) w = (lines, cur ++ " " ++ w) := by
      unfold wrapStep
      simp [hcur, htest]
    rw [hstep]
    exact ih lines (cur ++ " " ++ w) (append_sp_ne cur w) hfit'

/-- A nonempty character list never yields the empty string. -/
theorem mk_ne_empty {l : List Char} (h : l ≠ []) : String.mk l ≠ "" := by
  intro he
  apply h
  have hd : (String.mk l).data = ("" : String).data := by rw [he]
  simpa using hd

/-- The whitespace splitter never emits an empty piece. -/
theorem splitWsAux_ne_empty : ∀ (cs : List Char) (acc : List Char), "" ∉ splitWsAux cs acc := by
  intro cs
  induction cs with
  | nil =>
    intro acc
    unfold splitWsAux
    by_cases h : acc = []
    · simp [h]
    · rw [if_neg h]
      intro hc
      exact mk_ne_empty (by simpa using h) (List.mem_singleton.mp hc).symm
  | cons c cs ih =>
    intro acc hc
    unfold splitWsAux at hc
    by_cases hw : c.isWhitespace = true
    · rw [if_pos hw] at hc
      rcases List.mem_append.mp hc with hc1 | hc2
      · by_cases h : acc = []
        · rw [if_pos h] at hc1
          simp at hc1
        · rw [if_neg h] at hc1
          exact mk_ne_empty (by simpa using h) (List.mem_singleton.mp hc1).symm
      · exact ih [] hc2
    · rw [if_neg hw] at hc
      exact ih (c :: acc) hc

/-- Words produced by the Python whitespace split are nonempty. -/
theorem pywords_mem_ne {text w : String} (h : w ∈ pywords text) : w ≠ "" := by
  intro he
  subst he
  exact splitWsAux_ne_empty text.toList [] h

/-- When every word joined on one line fits within the maximum width, the
wrap produces exactly that single line. -/
theorem wrap_text_single (measure : String → Nat) (maxWidth : Nat) (text : String)
    (hmono : ∀ s t, measure s ≤ measure (s ++ t))
    (h : measure (joined (pywords text)) ≤ maxWidth) :
    wrap_text measure text maxWidth = [joined (pywords text)] := by
  unfold wrap_text
  cases hw : pywords text with
  | nil => simp [joined]
  | cons w ws =>
    rw [hw] at h
    have hwne : w ≠ "" := pywords_mem_ne (hw ▸ List.mem_cons_self w ws)
    have hjoin : measure (joinSp w ws) ≤ maxWidth := h
    have hfirst : wrapStep measure maxWidth ([], "") w = ([], w) := by
      unfold wrapStep
      simp [le_trans (le_joinSp measure hmono ws w) hjoin]
    rw [List.foldl_cons, hfirst,
        foldl_wrapStep_fits measure maxWidth hmono ws [] w hwne hjoin]
    simp [joinSp_ne ws w hwne, joined]

/-- One wrap iteration preserves the invariant that every emitted line and
the current line either fit within the width or are single source words. -/
theorem wrapStep_good (measure : String → Nat) (maxWidth : Nat) (words : List String)
    (acc : List String × String) (word : String)
    (hword : word ∈ words)
    (hlines : ∀ l ∈ acc.1, measure l ≤ maxWidth ∨ l ∈ words)
    (hcur : acc.2 = "" ∨ measure acc.2 ≤ maxWidth ∨ acc.2 ∈ words) :
    (∀ l ∈ (wrapStep measure maxWidth acc word).1, measure l ≤ maxWidth ∨ l ∈ words) ∧
    ((wrapStep measure maxWidth acc word).2 = "" ∨
      measure (wrapStep measure maxWidth acc word).2 ≤ maxWidth ∨
      (wrapStep measure maxWidth acc word).2 ∈ words) := by
  by_cases hc : acc.2 = ""
  · by_cases hf : measure word ≤ maxWidth
    · have hs : wrapStep measure maxWidth acc word = (acc.1, word) := by
        unfold wrapStep
        simp [hc, hf]
      rw [hs]
      exact ⟨hlines, Or.inr (Or.inl hf)⟩
    · have hs : wrapStep measure maxWidth acc word = (acc.1 ++ [word], "") := by
        unfold wrapStep
        simp [hc, hf]
      rw [hs]
      refine ⟨?_, Or.inl rfl⟩
      intro l hl
      rcases List.mem_append.mp hl with h1 | h2
      · exact hlines l h1
      · exact Or.inr (List.mem_singleton.mp h2 ▸ hword)
  · by_cases hf : measure (acc.2 ++ " " ++ word) ≤ maxWidth
    · have hs : wrapStep measure maxWidth acc word = (acc.1, acc.2 ++ " " ++ word) := by
        unfold wrapStep
        simp [hc, hf]
      rw [hs]
      exact ⟨hlines, Or.inr (Or.inl hf)⟩
    · have hs : wrapStep measure maxWidth acc word = (acc.1 ++ [acc.2], word) := by
        unfold wrapStep
        simp [hc, hf]
      rw [hs]
      refine ⟨?_, Or.inr (Or.inr hword)⟩
      intro l hl
      rcases List.mem_append.mp hl with h1 | h2
      · exact hlines l h1
      · rcases hcur with h | h
        · exact absurd h hc
        · exact List.mem_singleton.mp h2 ▸ h

/-- The wrap loop preserves the fit-or-single-word invariant. -/
theorem foldl_wrapStep_good (measure : String → Nat) (maxWidth : Nat) (words : List String) :
    ∀ (ws : List String) (acc : List String × String),
      (∀ w ∈ ws, w ∈ words) →
      (∀ l ∈ acc.1, measure l ≤ maxWidth ∨ l ∈ words) →
      (acc.2 = "" ∨ measure acc.2 ≤ maxWidth ∨ acc.2 ∈ words) →
      (∀ l ∈ (ws.foldl (wrapStep measure maxWidth) acc).1,
        measure l ≤ maxWidth ∨ l ∈ words) ∧
      ((ws.foldl (wrapStep measure maxWidth) acc).2 = "" ∨
        measure (ws.foldl (wrapStep measure maxWidth) acc).2 ≤ maxWidth ∨
        (ws.foldl (wrapStep measure maxWidth) acc).2 ∈ words) := by
  intro ws
  induction ws with
  | nil => intro acc _ h1 h2; exact ⟨h1, h2⟩
  | cons w ws ih =>
    intro acc hws h1 h2
    rw [List.foldl_cons]
    have hg := wrapStep_good measure maxWidth words acc w
      (hws w (List.mem_cons_self w ws)) h1 h2
    exact ih _ (fun x hx => hws x (List.mem_cons_of_mem _ hx)) hg.1 hg.2

/-- Every line the wrap produces either fits within the maximum width or
is a single source word, emitted alone. -/
theorem wrap_text_good (measure : String → Nat) (maxWidth : Nat) (text : String)
    (h0 : measure "" = 0) :
    ∀ l ∈ wrap_text measure text maxWidth, measure l ≤ maxWidth ∨ l ∈ pywords text := by
  intro l hl
  have hg := foldl_wrapStep_good measure maxWidth (pywords text) (pywords text)
    ([], "") (fun _ hw => hw) (by simp) (Or.inl rfl)
  simp only [wrap_text] at hl
  set r := (pywords text).foldl (wrapStep measure maxWidth) ([], "") with hr
  by_cases h2 : r.2 = ""
  · rw [if_pos h2] at hl
    by_cases hnil : r.1 = []
    · rw [if_pos hnil] at hl
      have hl' : l = "" := List.mem_singleton.mp hl
      subst hl'
      refine Or.inl ?_
      rw [h0]
      exact Nat.zero_le _
    · rw [if_neg hnil] at hl
      exact hg.1 l hl
  · rw [if_neg h2] at hl
    have hne : r.1 ++ [r.2] ≠ [] := by simp
    rw [if_neg hne] at hl
    rcases List.mem_append.mp hl with h1 | hsing
    · exact hg.1 l h1
    · rcases hg.2 with h | h
      · exact absurd h h2
      · exact List.mem_singleton.mp hsing ▸ h

/-- C6: under a width measure that is monotone in string extension and
gives the empty string width zero, the wrap produces exactly one line when
all words joined on one line fit within the maximum width, and it never
produces a line wider than the maximum width unless that line is a single
source word emitted alone. -/
theorem claim_C6 (measure : String → Nat) (maxWidth : Nat) (text : String)
    (hmono : ∀ s t, measure s ≤ measure (s ++ t)) (h0 : measure "" = 0) :
    (measure (joined (pywords text)) ≤ maxWidth →
      wrap_text measure text maxWidth = [joined (pywords text)]) ∧
    (∀ l ∈ wrap_text measure text maxWidth, measure l ≤ maxWidth ∨ l ∈ pywords text) :=
  ⟨wrap_text_single measure maxWidth text hmono,
   wrap_text_good measure maxWidth text h0⟩

/-- Witness for C6 with the character-count measure on a short text: the
whole text fits and the wrap is that single line. -/
theorem claim_C6_witness :
    wrap_text String.length "hello world" 50 = ["hello world"] := by
  have h := claim_C6 String.length 50 "hello world"
    (fun s t => by simp [String.length_append]) rfl
  have h1 := h.1 (by decide)
  simpa using h1

/-- C5: every text, calendar and todo render is exactly 576 pixels wide
and its height is the number of wrapped lines times the line height (the
glyph height scaled by the line-spacing factor) plus twice the margin;
the monochrome conversion and the vertical flip preserve dimensions. -/
theorem claim_C5 (cfg : RendererConfig) (text fontType : String)
    (events : List CalEvent) (todos : List TodoItem) :
    (render_text cfg text fontType none).width = 576 ∧
    (render_text cfg text fontType none).height =
      (wrap_text (cfg.fontFor fontType).textWidth text (WIDTH - 2 * cfg.margin)).length
        * cfg.lineSpacingScale (cfg.fontFor fontType).glyphHeight + 2 * cfg.margin ∧
    render_calendar_events cfg events fontType
      = render_text cfg (calendar_text cfg events) fontType none ∧
    render_todo_list cfg todos fontType
      = render_text cfg (todo_text todos) fontType none ∧
    (∀ img : RImage, (prepare_for_printer img).width = img.width ∧
      (prepare_for_printer img).height = img.height ∧
      (prepare_for_printer img).mode = "1") := by
  refine ⟨rfl, rfl, ?_, ?_, fun img => ⟨rfl, rfl, rfl⟩⟩
  · unfold render_calendar_events calendar_text
    by_cases h : events = [] <;> simp [h]
  · unfold render_todo_list todo_text
    by_cases h : todos = [] <;> simp [h]

/-- Counterexample to C7 as stated: with a character-count width measure
and one untimed event, the rendered image does not consist of a header
line followed by one bullet line per event, because render_text re-wraps
the newline-joined content on whitespace and everything fits on one line. -/
theorem claim_C7_counterexample :
    (render_calendar_events cfgCex
        [{ summary := some "Standup", startDateTime := none }] "sans-serif").textLines
      ≠ ["Today\x27s Events:", "• Standup"] := by decide

/-- C7 as amended: render_calendar_events composes content lines that are
a header, a blank separator, then one bullet per event, with the HH:MM
prefix exactly when a start time is present and parses, and renders their
newline-join through render_text (whose whitespace wrap determines the
final line structure); an empty event list renders the no-events text. -/
theorem claim_C7 (cfg : RendererConfig) (fontType : String) (events : List CalEvent) :
    (events = [] → render_calendar_events cfg events fontType
      = render_text cfg "No events today" fontType none) ∧
    (events ≠ [] → render_calendar_events cfg events fontType
      = render_text cfg (joinWith "\n" (calendar_content_lines cfg events)) fontType none) ∧
    (calendar_content_lines cfg events).length = events.length + 2 ∧
    (calendar_content_lines cfg events)[0]? = some "Today\x27s Events:" ∧
    (calendar_content_lines cfg events)[1]? = some "" ∧
    (∀ i : Nat, (calendar_content_lines cfg events)[i + 2]?
      = (events[i]?).map (event_line cfg)) ∧
    (∀ (e : CalEvent) (s : String) (hh mm : Nat), e.startDateTime = some s → s ≠ "" →
      cfg.parseISOTime (replaceZ s) = some (hh, mm) →
      event_line cfg e = "• " ++ two_digit hh ++ ":" ++ two_digit mm ++ " - "
        ++ e.summary.getD "Untitled Event") ∧
    (∀ (e : CalEvent) (s : String), e.startDateTime = some s → s ≠ "" →
      cfg.parseISOTime (replaceZ s) = none →
      event_line cfg e = "• " ++ e.summary.getD "Untitled Event") ∧
    (∀ e : CalEvent, e.startDateTime.getD "" = "" →
      event_line cfg e = "• " ++ e.summary.getD "Untitled Event") := by
  refine ⟨?_, ?_, ?_, ?_, ?_, ?_, ?_, ?_, ?_⟩
  · intro h
    simp [render_calendar_events, h]
  · intro h
    simp [render_calendar_events, h]
  · simp [calendar_content_lines]
  · simp [calendar_content_lines]
  · simp [calendar_content_lines]
  · intro i
    simp [calendar_content_lines]
  · intro e s hh mm h1 h2 h3
    unfold event_line
    rw [h1]
    simp only [Option.getD_some]
    rw [if_neg h2, h3]
  · intro e s h1 h2 h3
    unfold event_line
    rw [h1]
    simp only [Option.getD_some]
    rw [if_neg h2, h3]
  · intro e h
    unfold event_line
    rw [h]
    simp

/-- Witness for C7 at a concrete configuration whose parser accepts one
timestamp: the timed event renders with the HH:MM prefix and the nonempty
branch produces the newline-joined content. -/
theorem claim_C7_witness :
    render_calendar_events cfgCal [evTimed] "sans-serif"
      = render_text cfgCal (joinWith "\n" (calendar_content_lines cfgCal [evTimed]))
          "sans-serif" none ∧
    event_line cfgCal evTimed = "• 09:30 - Standup" := by
  have h := claim_C7 cfgCal "sans-serif" [evTimed]
  refine ⟨h.2.1 (by decide), ?_⟩
  have he := h.2.2.2.2.2.2.1 evTimed "2024-05-01T09:30:00Z" 9 30 rfl (by decide) (by decide)
  rw [he]
  decide

end StickyPrint
